import Mathlib

/-!
Verification of a minimal sqlite3-backed persistence layer for a single
"video game" table (src/main.py).

The embedding models:
- dynamically typed Python values flowing through the layer (PyVal);
- the exception kinds the layer can raise (PyError);
- the VideoGameModel dataclass with its guarded id property setter;
- the sqlite3 store, including sqlite column-affinity coercions and the
  Python sqlite3 module's implicit-transaction discipline: a DML statement
  (INSERT or DELETE) implicitly opens a deferred transaction when none is
  open, nothing in this layer ever commits, and the UNIQUE constraint's
  ON CONFLICT ROLLBACK resolution rolls back the whole open transaction;
- the database_context cursor context manager, which is a generator with
  no try/finally: the cursor is closed only when the managed block
  completes normally, not when an exception propagates through the yield.

Python floats and sqlite REAL values are modelled as exact rationals; no
claim under study concerns floating-point rounding.
-/

/-- A Python runtime value as it flows through this layer: an int, a float
(modelled as an exact rational), a str, or None. -/
inductive PyVal where
  | vInt : Int → PyVal
  | vFloat : Rat → PyVal
  | vStr : String → PyVal
  | vNone : PyVal
deriving DecidableEq, Repr

/-- Python isinstance(v, int) for the values modelled here. -/
def PyVal.isInt : PyVal → Bool
  | .vInt _ => true
  | _ => false

/-- The value is a Python number (int or float). -/
def PyVal.isNumeric : PyVal → Bool
  | .vInt _ => true
  | .vFloat _ => true
  | _ => false

/-- Python equality (the == operator) on the modelled values: numbers
compare by numeric value across int and float; strings compare as strings;
a string never equals a number; None equals only None. -/
def PyVal.pyEq : PyVal → PyVal → Bool
  | .vInt m, .vInt n => m == n
  | .vInt m, .vFloat q => (m : Rat) == q
  | .vFloat q, .vInt m => q == (m : Rat)
  | .vFloat p, .vFloat q => p == q
  | .vStr s, .vStr t => s == t
  | .vNone, .vNone => true
  | _, _ => false

/-- The exception kinds this layer can raise.  The first four are the
Python exception classes actually raised by the code in src/main.py
(sqlite3.IntegrityError, sqlite3.OperationalError, TypeError, ValueError).
The notFound kind is modelled from the spec: section 7 of the spec names a
NotFound error raised when a name lookup matches zero rows, but no code in
src/main.py defines or raises such an error; the constructor exists only so
that statements about the spec's error taxonomy can be written. -/
inductive PyError where
  | integrityError
  | operationalError
  | typeError
  | valueError
  | notFound
deriving DecidableEq, Repr

/-- The error carried by an Except result, when there is one. -/
def errOf : Except PyError α → Option PyError
  | .error e => some e
  | .ok _ => none

/-- The VideoGameModel dataclass (slots): three fields, the third being the
private slot behind the id property.  Fields hold arbitrary Python values
because the dataclass performs no validation. -/
structure VideoGameModel where
  name : PyVal
  rating : PyVal
  _id : PyVal := PyVal.vNone
deriving DecidableEq, Repr

/-- The dataclass-generated VideoGameModel.__init__: it assigns the _id
slot directly, bypassing the id property setter, so no validation of any
field happens at construction time. -/
def videoGameModelInit (name rating i : PyVal) : VideoGameModel :=
  { name := name, rating := rating, _id := i }

/-- The id property getter. -/
def VideoGameModel.id (m : VideoGameModel) : PyVal := m._id

/-- The id property setter: raises ValueError when the assigned value is
not an int (the code reads: if not isinstance(value, int): raise
ValueError), otherwise stores it. -/
def VideoGameModel.setId (m : VideoGameModel) (value : PyVal) :
    Except PyError VideoGameModel :=
  if value.isInt then .ok { m with _id := value } else .error .valueError

/-- Digits of a decimal numeral to a Nat; none on a non-digit. -/
def parseDigitsAux : List Char → Nat → Option Nat
  | [], acc => some acc
  | c :: cs, acc =>
      if c.isDigit then parseDigitsAux cs (acc * 10 + (c.toNat - 48)) else none

/-- A nonempty all-digit string of characters to a Nat. -/
def parseDigits (cs : List Char) : Option Nat :=
  if cs.isEmpty then none else parseDigitsAux cs 0

/-- An unsigned decimal numeral, optionally with a fractional part, to an
exact rational. -/
def parseUnsignedNum (cs : List Char) : Option Rat :=
  match cs.span (fun c => c != '.') with
  | (intPart, []) => (parseDigits intPart).map (fun n => (n : Rat))
  | (intPart, _dot :: fracPart) =>
      match parseDigits intPart, parseDigits fracPart with
      | some n, some f =>
          some ((n : Rat) + (f : Rat) / ((10 : Rat) ^ fracPart.length))
      | _, _ => none

/-- A well-formed signed integer or real literal, as sqlite recognises text
for numeric conversion, to an exact rational.  Modelled from the sqlite
type-affinity rules for the literal forms sign, digits, and a fractional
part; exponent forms are not modelled, no claim under study uses them. -/
def parseNumLiteral (s : String) : Option Rat :=
  match s.toList with
  | '-' :: rest => (parseUnsignedNum rest).map (fun q => -q)
  | '+' :: rest => parseUnsignedNum rest
  | cs => parseUnsignedNum cs

/-- sqlite TEXT affinity, applied to values bound into the name column:
numbers are converted to their text rendering, text and None are kept. -/
def applyTextAffinity : PyVal → PyVal
  | .vInt n => .vStr (toString n)
  | .vFloat q => .vStr (toString q)
  | v => v

/-- sqlite REAL affinity, applied to values bound into the rating column:
ints are forced to float; text that is a well-formed numeric literal is
converted to float; other text and None are kept. -/
def applyRealAffinity : PyVal → PyVal
  | .vInt n => .vFloat (n : Rat)
  | .vStr s =>
      match parseNumLiteral s with
      | some q => .vFloat q
      | none => .vStr s
  | v => v

/-- One row of the videogames table. -/
structure Row where
  id : Int
  name : PyVal
  rating : PyVal
deriving DecidableEq, Repr

/-- The state of the videogames table: whether it exists, its rows in
storage order, and the AUTOINCREMENT sequence counter. -/
structure TableState where
  hasTable : Bool
  rows : List Row
  seq : Int
deriving DecidableEq, Repr

/-- The sqlite connection state as the Python sqlite3 module manages it:
the last committed table state, and, when an implicit transaction is open,
the table state as modified within it.  The code in src/main.py never
commits, so every DML effect lives in the pending state until a conflict
rolls it back. -/
structure DB where
  committed : TableState
  pending : Option TableState
deriving DecidableEq, Repr

/-- The table state visible to statements on this connection: the pending
transaction state when a transaction is open, else the committed state. -/
def DB.view (db : DB) : TableState := db.pending.getD db.committed

/-- The implicit BEGIN the Python sqlite3 module issues before a DML
statement when no transaction is open. -/
def DB.beginIfNeeded (db : DB) : DB :=
  match db.pending with
  | some _ => db
  | none => { db with pending := some db.committed }

/-- A connection with no table and no open transaction, as produced by
sqlite3.connect. -/
def freshDB : DB :=
  { committed := { hasTable := false, rows := [], seq := 0 }, pending := none }

/-- Whether some row of the table has the given stored name. -/
def TableState.containsName (t : TableState) (v : PyVal) : Bool :=
  t.rows.any (fun r => r.name == v)

/-- How many rows of the table have the given stored name. -/
def TableState.countName (t : TableState) (v : PyVal) : Nat :=
  (t.rows.filter (fun r => r.name == v)).length

/-- Executing the CREATE TABLE IF NOT EXISTS statement.  DDL does not open
an implicit transaction; if one is already open the created table belongs
to it.  When the table already exists the statement is a no-op. -/
def create_table_statement (db : DB) : DB :=
  match db.pending with
  | some t =>
      if t.hasTable then db
      else { db with pending := some { hasTable := true, rows := [], seq := 0 } }
  | none =>
      if db.committed.hasTable then db
      else { db with committed := { hasTable := true, rows := [], seq := 0 } }

/-- Executing the INSERT statement with the two bound parameters.  Control
flow mirrors sqlite plus the Python sqlite3 module: preparing against a
missing table raises OperationalError before any transaction is opened;
otherwise the implicit transaction is opened, column affinities are
applied, a NULL in either NOT NULL column aborts just the statement with
IntegrityError, and a duplicate name fires the UNIQUE constraint whose
ON CONFLICT ROLLBACK resolution rolls back the whole open transaction and
raises IntegrityError.  On success the row is appended with the next
AUTOINCREMENT id, which is also the cursor's lastrowid. -/
def insert_statement (db : DB) (nv rv : PyVal) : DB × Except PyError Int :=
  if db.view.hasTable then
    if applyTextAffinity nv = PyVal.vNone ∨ applyRealAffinity rv = PyVal.vNone then
      (db.beginIfNeeded, .error .integrityError)
    else if db.beginIfNeeded.view.containsName (applyTextAffinity nv) then
      ({ db.beginIfNeeded with pending := none }, .error .integrityError)
    else
      ({ db.beginIfNeeded with pending := some (
          { db.beginIfNeeded.view with
            rows := db.beginIfNeeded.view.rows ++
              [{ id := db.beginIfNeeded.view.seq + 1,
                 name := applyTextAffinity nv,
                 rating := applyRealAffinity rv }],
            seq := db.beginIfNeeded.view.seq + 1 }) },
       .ok (db.beginIfNeeded.view.seq + 1))
  else (db, .error .operationalError)

/-- Executing the DELETE statement with the bound id parameter: rows whose
id equals the parameter are removed from the visible table state, inside
the implicit transaction; a missing table raises OperationalError at
prepare time. -/
def delete_statement (db : DB) (i : Int) : DB × Except PyError Unit :=
  if db.view.hasTable then
    ({ db.beginIfNeeded with pending := some (
        { db.beginIfNeeded.view with
          rows := db.beginIfNeeded.view.rows.filter (fun r => r.id != i) }) },
     .ok ())
  else (db, .error .operationalError)

/-- Executing the SELECT of all rows: reads the visible table state; a
missing table raises OperationalError.  SELECT opens no transaction. -/
def select_all_statement (db : DB) : Except PyError (List Row) :=
  if db.view.hasTable then .ok db.view.rows else .error .operationalError

/-- Executing the SELECT with a bound name parameter (a Python str): the
rows whose stored name equals the parameter, in storage order. -/
def select_by_name_statement (db : DB) (name : String) : Except PyError (List Row) :=
  if db.view.hasTable then
    .ok (db.view.rows.filter (fun r => r.name == PyVal.vStr name))
  else .error .operationalError

/-- The outcome of one storage operation: the connection state afterwards,
the returned value or propagated exception, and whether the cursor
acquired for the operation was closed by the time the operation
returned or propagated. -/
structure OpResult (α : Type) where
  db : DB
  val : Except PyError α
  cursorClosed : Bool
deriving Repr

/-- The database_context context manager from src/main.py.  It is a
generator with no try/finally: cursor = db.cursor(); yield cursor;
cursor.close().  When the managed block completes normally the line after
the yield runs and the cursor is closed; when the block raises, the
exception is thrown through the yield, propagates out of the generator,
and cursor.close() is never executed. -/
def database_context (db : DB) (body : Except PyError α) : OpResult α :=
  match body with
  | .ok a => { db := db, val := .ok a, cursorClosed := true }
  | .error e => { db := db, val := .error e, cursorClosed := false }

/-- create_video_game_table: one DDL statement inside database_context. -/
def create_video_game_table (db : DB) : OpResult Unit :=
  database_context (create_table_statement db) (.ok ())

/-- add_video_game: executes the INSERT inside database_context, then,
still inside the managed block, assigns cursor.lastrowid to the entity's
id property (through the setter).  The pair's second component is the
caller's entity after the call: mutated in place on success, untouched
when the insert raised. -/
def add_video_game (db : DB) (vg : VideoGameModel) :
    OpResult Unit × VideoGameModel :=
  match insert_statement db vg.name vg.rating with
  | (db', .ok rowid) =>
      match vg.setId (.vInt rowid) with
      | .ok vg' => (database_context db' (.ok ()), vg')
      | .error e => (database_context db' (.error e), vg)
  | (db', .error e) => (database_context db' (.error e), vg)

/-- get_all_video_games: SELECTs every row and builds a VideoGameModel
from each row tuple (name, rating, id) through the dataclass __init__. -/
def get_all_video_games (db : DB) : OpResult (List VideoGameModel) :=
  match select_all_statement db with
  | .ok rows =>
      database_context db
        (.ok (rows.map (fun r => videoGameModelInit r.name r.rating (.vInt r.id))))
  | .error e => database_context db (.error e)

/-- get_video_game_by_name: SELECTs the rows matching the name and returns
VideoGameModel(*cursor.fetchone()).  When no row matches, fetchone returns
None and unpacking None raises TypeError inside the managed block. -/
def get_video_game_by_name (db : DB) (name : String) : OpResult VideoGameModel :=
  match select_by_name_statement db name with
  | .ok rows =>
      match rows.head? with
      | some r =>
          database_context db (.ok (videoGameModelInit r.name r.rating (.vInt r.id)))
      | none => database_context db (.error .typeError)
  | .error e => database_context db (.error e)

/-- delete_video_game_by_id: one DELETE statement inside database_context. -/
def delete_video_game_by_id (db : DB) (i : Int) : OpResult Unit :=
  match delete_statement db i with
  | (db', .ok _) => database_context db' (.ok ())
  | (db', .error e) => database_context db' (.error e)

/-- The connection state after create_video_game_table on a fresh
connection: the table exists, committed, no transaction open. -/
def dbTable : DB := (create_video_game_table freshDB).db

/-- An unpersisted entity named X. -/
def vgX : VideoGameModel :=
  { name := PyVal.vStr "X", rating := PyVal.vFloat 1, _id := PyVal.vNone }

/-- The connection state after inserting vgX into dbTable: the row lives
in the open implicit transaction, nothing is committed. -/
def dbOneX : DB := (add_video_game dbTable vgX).1.db

/-- An unpersisted entity named A. -/
def vgA : VideoGameModel :=
  { name := PyVal.vStr "A", rating := PyVal.vFloat 1, _id := PyVal.vNone }

/-- An unpersisted entity named B. -/
def vgB : VideoGameModel :=
  { name := PyVal.vStr "B", rating := PyVal.vFloat 2, _id := PyVal.vNone }

/-- A second unpersisted entity named A, with a different rating. -/
def vgA2 : VideoGameModel :=
  { name := PyVal.vStr "A", rating := PyVal.vFloat 3, _id := PyVal.vNone }

/-- The connection state after inserting vgA and vgB into dbTable: both
rows live in the same open implicit transaction. -/
def dbAB : DB := (add_video_game (add_video_game dbTable vgA).1.db vgB).1.db

/-- An entity whose rating was passed as the numeric string 90, as the
demonstration code in src/main.py does. -/
def vgG : VideoGameModel :=
  { name := PyVal.vStr "G", rating := PyVal.vStr "90", _id := PyVal.vNone }

/-- The connection state after inserting vgG into dbTable. -/
def dbG : DB := (add_video_game dbTable vgG).1.db

/-- An unpersisted entity named S with float rating 90. -/
def vgS : VideoGameModel :=
  { name := PyVal.vStr "S", rating := PyVal.vFloat 90, _id := PyVal.vNone }

/-- An entity named Z whose identifier field already holds a value before
it is ever inserted. -/
def vgZ : VideoGameModel :=
  { name := PyVal.vStr "Z", rating := PyVal.vFloat 1, _id := PyVal.vInt 999 }

/-- Opening the implicit transaction does not change the visible table. -/
theorem DB.view_beginIfNeeded (db : DB) : db.beginIfNeeded.view = db.view := by
  cases db with
  | mk c p => cases p <;> rfl

/-- Opening the implicit transaction does not change the committed state. -/
theorem DB.committed_beginIfNeeded (db : DB) :
    db.beginIfNeeded.committed = db.committed := by
  cases db with
  | mk c p => cases p <;> rfl

/-- REAL affinity never turns a non-None value into None. -/
theorem applyRealAffinity_ne_vNone (v : PyVal) (h : v ≠ PyVal.vNone) :
    applyRealAffinity v ≠ PyVal.vNone := by
  cases v with
  | vInt n => simp [applyRealAffinity]
  | vFloat q => simp [applyRealAffinity]
  | vStr s =>
      simp only [applyRealAffinity]
      cases parseNumLiteral s <;> simp
  | vNone => exact absurd rfl h

/-- REAL affinity sends a Python number to a float that is Python-equal
to it. -/
theorem applyRealAffinity_numeric (v : PyVal) (h : v.isNumeric = true) :
    ∃ q : Rat, applyRealAffinity v = PyVal.vFloat q ∧
      PyVal.pyEq v (PyVal.vFloat q) = true := by
  cases v with
  | vInt i => exact ⟨(i : Rat), rfl, by simp [PyVal.pyEq]⟩
  | vFloat q => exact ⟨q, rfl, by simp [PyVal.pyEq]⟩
  | vStr s => simp [PyVal.isNumeric] at h
  | vNone => simp [PyVal.isNumeric] at h

/-- A table containing no row with the given name filters to the empty
list on that name. -/
theorem filter_name_eq_nil (t : TableState) (v : PyVal)
    (h : t.containsName v = false) :
    t.rows.filter (fun r => r.name == v) = [] := by
  unfold TableState.containsName at h
  rw [List.filter_eq_nil_iff]
  intro a ha hbeq
  have : t.rows.any (fun r => r.name == v) = true :=
    List.any_eq_true.mpr ⟨a, ha, hbeq⟩
  rw [h] at this
  exact Bool.false_ne_true this

/-- Executing the INSERT against a visible table that already contains the
(string) name: the UNIQUE constraint fires and its ROLLBACK resolution
closes the open transaction, discarding its writes. -/
theorem insert_statement_duplicate (db : DB) (nv rv : PyVal) (s : String)
    (hT : db.view.hasTable = true)
    (hn : applyTextAffinity nv = PyVal.vStr s)
    (hr : applyRealAffinity rv ≠ PyVal.vNone)
    (hdup : db.view.containsName (PyVal.vStr s) = true) :
    insert_statement db nv rv =
      ({ db.beginIfNeeded with pending := none }, .error .integrityError) := by
  simp [insert_statement, hT, hn, hr, DB.view_beginIfNeeded, hdup]

/-- add_video_game on a duplicate (string) name: the operation propagates
IntegrityError, the cursor is left open, the caller's entity is untouched,
and the connection is left with no open transaction. -/
theorem add_video_game_duplicate (db : DB) (vg : VideoGameModel) (s : String)
    (hT : db.view.hasTable = true)
    (hn : applyTextAffinity vg.name = PyVal.vStr s)
    (hr : applyRealAffinity vg.rating ≠ PyVal.vNone)
    (hdup : db.view.containsName (PyVal.vStr s) = true) :
    add_video_game db vg =
      ({ db := { db.beginIfNeeded with pending := none },
         val := .error .integrityError, cursorClosed := false }, vg) := by
  unfold add_video_game
  rw [insert_statement_duplicate db vg.name vg.rating s hT hn hr hdup]
  rfl

/-- Executing the INSERT of a fresh (string) name with a non-NULL rating:
the row is appended inside the open transaction with the next
AUTOINCREMENT id, which is returned as lastrowid. -/
theorem insert_statement_fresh (db : DB) (nv rv : PyVal) (s : String)
    (hT : db.view.hasTable = true)
    (hn : applyTextAffinity nv = PyVal.vStr s)
    (hr : applyRealAffinity rv ≠ PyVal.vNone)
    (hfresh : db.view.containsName (PyVal.vStr s) = false) :
    insert_statement db nv rv =
      ({ db.beginIfNeeded with pending := some (
          { db.view with
            rows := db.view.rows ++
              [{ id := db.view.seq + 1, name := PyVal.vStr s,
                 rating := applyRealAffinity rv }],
            seq := db.view.seq + 1 }) },
       .ok (db.view.seq + 1)) := by
  simp [insert_statement, hT, hn, hr, DB.view_beginIfNeeded, hfresh]

/-- add_video_game on a fresh (string) name: the insert succeeds, the
cursor is closed, and the store-assigned id is written back into the
entity through the id property setter. -/
theorem add_video_game_fresh (db : DB) (vg : VideoGameModel) (s : String)
    (hT : db.view.hasTable = true)
    (hn : applyTextAffinity vg.name = PyVal.vStr s)
    (hr : applyRealAffinity vg.rating ≠ PyVal.vNone)
    (hfresh : db.view.containsName (PyVal.vStr s) = false) :
    add_video_game db vg =
      ({ db := { db.beginIfNeeded with pending := some (
            { db.view with
              rows := db.view.rows ++
                [{ id := db.view.seq + 1, name := PyVal.vStr s,
                   rating := applyRealAffinity vg.rating }],
              seq := db.view.seq + 1 }) },
         val := .ok (), cursorClosed := true },
       { vg with _id := PyVal.vInt (db.view.seq + 1) }) := by
  unfold add_video_game
  rw [insert_statement_fresh db vg.name vg.rating s hT hn hr hfresh]
  rfl

/-- C1 (amended): if the visible store contains a row with (string) name N,
a second insert of an entity with name N fails with IntegrityError
(ConstraintViolation) and writes no new row; but the UNIQUE constraint's
ON CONFLICT ROLLBACK resolution rolls back the whole open implicit
transaction, so the visible store afterwards is exactly the last committed
state — in particular the number of rows with name N afterwards is the
committed count, not necessarily one. -/
theorem C1_duplicate_name_rolls_back (db : DB) (vg : VideoGameModel) (n : String)
    (hT : db.view.hasTable = true)
    (hname : vg.name = PyVal.vStr n)
    (hrating : vg.rating ≠ PyVal.vNone)
    (hdup : db.view.containsName (PyVal.vStr n) = true) :
    (add_video_game db vg).1.val = .error .integrityError ∧
    (add_video_game db vg).1.db.view = db.committed ∧
    (add_video_game db vg).1.db.view.countName (PyVal.vStr n) =
      db.committed.countName (PyVal.vStr n) := by
  have hn : applyTextAffinity vg.name = PyVal.vStr n := by rw [hname]; rfl
  have hr := applyRealAffinity_ne_vNone vg.rating hrating
  rw [add_video_game_duplicate db vg n hT hn hr hdup]
  refine ⟨rfl, ?_, ?_⟩
  · show DB.view _ = db.committed
    simp [DB.view, DB.committed_beginIfNeeded]
  · show TableState.countName (DB.view _) _ = _
    simp [DB.view, DB.committed_beginIfNeeded]

/-- Witness for C1: on the concrete connection holding one uncommitted row
named X, inserting another X fails with IntegrityError and the visible
store reverts to the (empty) committed state. -/
theorem C1_duplicate_name_rolls_back_witness :
    (add_video_game dbOneX vgX).1.val = .error .integrityError ∧
    (add_video_game dbOneX vgX).1.db.view = dbOneX.committed ∧
    (add_video_game dbOneX vgX).1.db.view.countName (PyVal.vStr "X") =
      dbOneX.committed.countName (PyVal.vStr "X") :=
  C1_duplicate_name_rolls_back dbOneX vgX "X" (by decide) rfl (by decide) (by decide)

/-- C1 counterexample to the claim as stated: the store dbOneX contains
exactly one row named X; the second insert of an entity named X fails as
claimed, but afterwards the store contains zero rows named X, not exactly
one — the rollback also discarded the first, uncommitted insert. -/
theorem C1_counterexample :
    dbOneX.view.countName (PyVal.vStr "X") = 1 ∧
    (add_video_game dbOneX vgX).1.val = .error .integrityError ∧
    (add_video_game dbOneX vgX).1.db.view.countName (PyVal.vStr "X") = 0 :=
  ⟨by decide, rfl, by decide⟩

/-- C4 (amended): inserting an entity whose (string) name already exists
in the visible store raises IntegrityError, writes no row itself, and
leaves the passed entity untouched — in particular its identifier field
stays unset; but the store is not unchanged in general: the conflict's
ROLLBACK resolution discards every uncommitted write of the open implicit
transaction, reverting the visible store to the last committed state. -/
theorem C4_duplicate_insert_entity_untouched (db : DB) (vg : VideoGameModel)
    (n : String)
    (hT : db.view.hasTable = true)
    (hname : vg.name = PyVal.vStr n)
    (hrating : vg.rating ≠ PyVal.vNone)
    (hdup : db.view.containsName (PyVal.vStr n) = true)
    (hid : vg._id = PyVal.vNone) :
    (add_video_game db vg).1.val = .error .integrityError ∧
    (add_video_game db vg).2 = vg ∧
    (add_video_game db vg).2._id = PyVal.vNone ∧
    (add_video_game db vg).1.db.view = db.committed := by
  have hn : applyTextAffinity vg.name = PyVal.vStr n := by rw [hname]; rfl
  have hr := applyRealAffinity_ne_vNone vg.rating hrating
  rw [add_video_game_duplicate db vg n hT hn hr hdup]
  refine ⟨rfl, rfl, hid, ?_⟩
  show DB.view _ = db.committed
  simp [DB.view, DB.committed_beginIfNeeded]

/-- Witness for C4: the concrete duplicate insert of X fails, leaves the
entity with its identifier unset, and reverts the store to the committed
state. -/
theorem C4_duplicate_insert_entity_untouched_witness :
    (add_video_game dbOneX vgX).1.val = .error .integrityError ∧
    (add_video_game dbOneX vgX).2 = vgX ∧
    (add_video_game dbOneX vgX).2._id = PyVal.vNone ∧
    (add_video_game dbOneX vgX).1.db.view = dbOneX.committed :=
  C4_duplicate_insert_entity_untouched dbOneX vgX "X"
    (by decide) rfl (by decide) (by decide) rfl

/-- C4 counterexample to the claim as stated: on a connection whose open
transaction holds rows A and B, the failing insert of a duplicate A raises
the uniqueness error but does not leave the store unchanged — row B, which
was visible before the call, is gone afterwards. -/
theorem C4_counterexample :
    dbAB.view.countName (PyVal.vStr "B") = 1 ∧
    (add_video_game dbAB vgA2).1.val = .error .integrityError ∧
    (add_video_game dbAB vgA2).1.db.view.countName (PyVal.vStr "B") = 0 :=
  ⟨by decide, rfl, by decide⟩

/-- C3: the claim says every operation closes its cursor on every exit
path; the code's database_context generator has no try/finally, so on any
exit by exception the close after the yield never runs.  Evaluated at
concrete failing inputs: a DELETE prepared against a missing table, a
duplicate-name INSERT, and a by-name lookup matching zero rows all
propagate their error with the cursor still open, while a normally
completing operation does close it. -/
theorem C3_cursor_left_open_on_error :
    (create_video_game_table freshDB).cursorClosed = true ∧
    (delete_video_game_by_id freshDB 999999).val = .error .operationalError ∧
    (delete_video_game_by_id freshDB 999999).cursorClosed = false ∧
    (add_video_game dbOneX vgX).1.cursorClosed = false ∧
    (get_video_game_by_name dbTable "Nonexistent").cursorClosed = false :=
  ⟨rfl, rfl, rfl, rfl, rfl⟩

/-- C5 (amended): assigning a non-integer value through the id property
setter fails immediately with ValueError — not TypeError — and assigning
an integer succeeds and stores the value. -/
theorem C5_setter_rejects_non_int (m : VideoGameModel) (v : PyVal) :
    (v.isInt = false → m.setId v = .error .valueError) ∧
    (v.isInt = true → m.setId v = .ok { m with _id := v }) := by
  constructor <;> intro h <;> simp [VideoGameModel.setId, h]

/-- Witness for C5: a concrete non-integer assignment yields ValueError
and a concrete integer assignment stores the value. -/
theorem C5_setter_rejects_non_int_witness :
    VideoGameModel.setId vgX (PyVal.vStr "oops") = .error .valueError ∧
    VideoGameModel.setId vgX (PyVal.vInt 7) =
      .ok { name := PyVal.vStr "X", rating := PyVal.vFloat 1,
            _id := PyVal.vInt 7 } :=
  ⟨(C5_setter_rejects_non_int vgX (PyVal.vStr "oops")).1 (by decide),
   (C5_setter_rejects_non_int vgX (PyVal.vInt 7)).2 (by decide)⟩

/-- C5 counterexample to the claim as stated: assigning the non-integer
string oops raises ValueError, which is not the TypeError the claim
names. -/
theorem C5_counterexample :
    VideoGameModel.setId vgX (PyVal.vStr "oops") = .error .valueError ∧
    PyError.valueError ≠ PyError.typeError :=
  ⟨rfl, by decide⟩

/-- C10: the integer guard lives only in the id property setter; the
dataclass-generated constructor assigns the _id slot directly, so an
entity whose identifier is the non-integer string x (and whose rating is
the non-numeric string n/a) is constructed without any error, even though
the setter rejects that same value. -/
theorem C10_constructor_bypasses_guard :
    (videoGameModelInit (PyVal.vStr "g") (PyVal.vStr "n/a") (PyVal.vStr "x"))._id
      = PyVal.vStr "x" ∧
    (videoGameModelInit (PyVal.vStr "g") (PyVal.vStr "n/a") (PyVal.vStr "x")).rating
      = PyVal.vStr "n/a" ∧
    (PyVal.vStr "x").isInt = false ∧
    (PyVal.vStr "n/a").isNumeric = false ∧
    (videoGameModelInit (PyVal.vStr "g") (PyVal.vStr "n/a") (PyVal.vStr "x")).setId
      (PyVal.vStr "x") = .error .valueError :=
  ⟨rfl, rfl, rfl, rfl, rfl⟩

/-- C2 (amended): on a store whose table exists, when zero rows match the
name, get_video_game_by_name fails — with the TypeError raised by
unpacking the None that fetchone returned, which is the layer's de-facto
not-found failure — and never silently returns a malformed or empty
entity; when exactly one row matches, it returns the entity built from
that row. -/
theorem C2_find_by_name_fails_or_returns (db : DB) (name : String)
    (hT : db.view.hasTable = true) :
    (db.view.rows.filter (fun r => r.name == PyVal.vStr name) = [] →
      (get_video_game_by_name db name).val = .error .typeError) ∧
    (∀ r : Row, db.view.rows.filter (fun r => r.name == PyVal.vStr name) = [r] →
      (get_video_game_by_name db name).val =
        .ok (videoGameModelInit r.name r.rating (PyVal.vInt r.id))) := by
  have hsel : select_by_name_statement db name =
      .ok (db.view.rows.filter (fun r => r.name == PyVal.vStr name)) := by
    simp [select_by_name_statement, hT]
  constructor
  · intro h
    unfold get_video_game_by_name
    rw [hsel, h]
    rfl
  · intro r h
    unfold get_video_game_by_name
    rw [hsel, h]
    rfl

/-- Witness for C2: a miss on the concrete table store fails with
TypeError, and a one-row match on the concrete one-row store returns the
entity built from the row. -/
theorem C2_find_by_name_fails_or_returns_witness :
    (get_video_game_by_name dbTable "Missing").val = .error .typeError ∧
    (get_video_game_by_name dbOneX "X").val =
      .ok (videoGameModelInit (PyVal.vStr "X") (PyVal.vFloat 1) (PyVal.vInt 1)) :=
  ⟨(C2_find_by_name_fails_or_returns dbTable "Missing" (by decide)).1 (by decide),
   (C2_find_by_name_fails_or_returns dbOneX "X" (by decide)).2
     { id := 1, name := PyVal.vStr "X", rating := PyVal.vFloat 1 } (by decide)⟩

/-- C2 counterexample to the claim as stated: the zero-match lookup does
fail, but the error raised is TypeError — the accidental result of
VideoGameModel(*None) — and not a dedicated not-found error kind as the
claim describes. -/
theorem C2_counterexample :
    (get_video_game_by_name dbTable "Nonexistent").val = .error .typeError ∧
    PyError.typeError ≠ PyError.notFound :=
  ⟨rfl, by decide⟩

/-- C8: create_video_game_table is idempotent — it never fails, calling it
twice in succession never fails, a call on a store whose table already
exists leaves the whole connection state (hence every existing row)
unchanged, and the second of two successive calls never changes the
visible rows. -/
theorem C8_create_table_idempotent (db : DB) :
    (create_video_game_table db).val = .ok () ∧
    (create_video_game_table (create_video_game_table db).db).val = .ok () ∧
    (db.view.hasTable = true → (create_video_game_table db).db = db) ∧
    (create_video_game_table (create_video_game_table db).db).db.view.rows =
      (create_video_game_table db).db.view.rows := by
  have hhas : ∀ d : DB, (create_table_statement d).view.hasTable = true := by
    intro d
    cases d with
    | mk c p =>
        cases p with
        | none => cases hc : c.hasTable <;> simp [create_table_statement, DB.view, hc]
        | some t => cases ht : t.hasTable <;> simp [create_table_statement, DB.view, ht]
  have hnoop : ∀ d : DB, d.view.hasTable = true → create_table_statement d = d := by
    intro d hd
    cases d with
    | mk c p =>
        cases p with
        | none =>
            simp only [DB.view, Option.getD] at hd
            simp [create_table_statement, hd]
        | some t =>
            simp only [DB.view, Option.getD] at hd
            simp [create_table_statement, hd]
  refine ⟨rfl, rfl, ?_, ?_⟩
  · intro hT
    show create_table_statement db = db
    exact hnoop db hT
  · show (create_table_statement (create_table_statement db)).view.rows =
      (create_table_statement db).view.rows
    rw [hnoop _ (hhas db)]

/-- Witness for C8: on the concrete store whose table exists, a repeated
call changes nothing and the second call still succeeds. -/
theorem C8_create_table_idempotent_witness :
    (create_video_game_table dbTable).db = dbTable ∧
    (create_video_game_table (create_video_game_table dbTable).db).val = .ok () :=
  ⟨(C8_create_table_idempotent dbTable).2.2.1 (by decide),
   (C8_create_table_idempotent dbTable).2.1⟩

/-- C9: on a store whose table exists, delete_video_game_by_id succeeds for
every integer id; every visible row with a different id survives, every
surviving row was already there and has a different id (so the row with
the given id, if any, is gone), and when no visible row has the id the
visible rows are exactly unchanged — a no-op without error. -/
theorem C9_delete_by_id (db : DB) (i : Int)
    (hT : db.view.hasTable = true) :
    (delete_video_game_by_id db i).val = .ok () ∧
    (∀ r : Row, r ∈ db.view.rows → r.id ≠ i →
      r ∈ (delete_video_game_by_id db i).db.view.rows) ∧
    (∀ r : Row, r ∈ (delete_video_game_by_id db i).db.view.rows →
      r ∈ db.view.rows ∧ r.id ≠ i) ∧
    ((∀ r : Row, r ∈ db.view.rows → r.id ≠ i) →
      (delete_video_game_by_id db i).db.view.rows = db.view.rows) := by
  have hdel : delete_statement db i =
      ({ db.beginIfNeeded with pending := some (
          { db.view with rows := db.view.rows.filter (fun r => r.id != i) }) },
       .ok ()) := by
    simp [delete_statement, hT, DB.view_beginIfNeeded]
  unfold delete_video_game_by_id
  rw [hdel]
  refine ⟨rfl, ?_, ?_, ?_⟩
  · intro r hr hne
    show r ∈ List.filter _ _
    rw [List.mem_filter]
    exact ⟨hr, by simpa using hne⟩
  · intro r hr
    rw [show (database_context { db.beginIfNeeded with pending := some (
          { db.view with rows := db.view.rows.filter (fun r => r.id != i) }) }
          (Except.ok ())).db.view.rows
        = db.view.rows.filter (fun r => r.id != i) from rfl] at hr
    rw [List.mem_filter] at hr
    exact ⟨hr.1, by simpa using hr.2⟩
  · intro hall
    show List.filter _ _ = _
    rw [List.filter_eq_self]
    intro r hr
    simpa using hall r hr

/-- The visible table of a connection with an open transaction is the
pending table. -/
theorem DB.view_pending_some (c t : TableState) :
    DB.view { committed := c, pending := some t } = t := rfl

/-- Witness for C9: deleting the unknown id 999999 from the concrete
one-row store succeeds and leaves the visible rows exactly unchanged. -/
theorem C9_delete_by_id_witness :
    (delete_video_game_by_id dbOneX 999999).val = .ok () ∧
    (delete_video_game_by_id dbOneX 999999).db.view.rows = dbOneX.view.rows :=
  ⟨(C9_delete_by_id dbOneX 999999 (by decide)).1,
   (C9_delete_by_id dbOneX 999999 (by decide)).2.2.2 (by decide)⟩

/-- C6 (amended): for an entity whose name is a string not yet in the
visible store and whose rating is a Python number (int or float),
inserting and then retrieving by name yields the entity built from the
stored row: its name equals the inserted name, its rating is the
REAL-affinity image of the inserted rating — a float that is Python-equal
to the inserted number — and its identifier is a now-present integer. -/
theorem C6_round_trip (db : DB) (vg : VideoGameModel) (n : String)
    (hT : db.view.hasTable = true)
    (hname : vg.name = PyVal.vStr n)
    (hfresh : db.view.containsName (PyVal.vStr n) = false)
    (hnum : vg.rating.isNumeric = true) :
    (add_video_game db vg).1.val = .ok () ∧
    (get_video_game_by_name (add_video_game db vg).1.db n).val =
      .ok (videoGameModelInit (PyVal.vStr n) (applyRealAffinity vg.rating)
            (PyVal.vInt (db.view.seq + 1))) ∧
    PyVal.vStr n = vg.name ∧
    PyVal.pyEq vg.rating (applyRealAffinity vg.rating) = true ∧
    (applyRealAffinity vg.rating).isNumeric = true := by
  have hn : applyTextAffinity vg.name = PyVal.vStr n := by rw [hname]; rfl
  obtain ⟨q, hq, hpy⟩ := applyRealAffinity_numeric vg.rating hnum
  have hr : applyRealAffinity vg.rating ≠ PyVal.vNone := by rw [hq]; simp
  have hadd := add_video_game_fresh db vg n hT hn hr hfresh
  have hval : (add_video_game db vg).1.val = .ok () := by rw [hadd]
  have hsel : select_by_name_statement (add_video_game db vg).1.db n =
      .ok [{ id := db.view.seq + 1, name := PyVal.vStr n,
             rating := applyRealAffinity vg.rating }] := by
    rw [hadd]
    simp only [select_by_name_statement, DB.view_pending_some]
    simp [hT, List.filter_append,
          filter_name_eq_nil db.view (PyVal.vStr n) hfresh]
  refine ⟨hval, ?_, hname.symm, ?_, ?_⟩
  · unfold get_video_game_by_name
    rw [hsel]
    rfl
  · rw [hq]
    exact hpy
  · rw [hq]
    rfl

/-- Witness for C6: inserting the concrete entity S with float rating 90
into the empty table store and retrieving it by name yields the entity
with name S, float rating 90 and integer identifier 1. -/
theorem C6_round_trip_witness :
    (add_video_game dbTable vgS).1.val = .ok () ∧
    (get_video_game_by_name (add_video_game dbTable vgS).1.db "S").val =
      .ok (videoGameModelInit (PyVal.vStr "S") (applyRealAffinity vgS.rating)
            (PyVal.vInt (dbTable.view.seq + 1))) ∧
    PyVal.vStr "S" = vgS.name ∧
    PyVal.pyEq vgS.rating (applyRealAffinity vgS.rating) = true ∧
    (applyRealAffinity vgS.rating).isNumeric = true :=
  C6_round_trip dbTable vgS "S" (by decide) rfl (by decide) (by decide)

/-- C6 counterexample to the claim as stated: quantified over every
entity, the round trip does not preserve the rating.  The entity vgG
carries the string rating 90, as the demonstration code does; its insert
succeeds, but the REAL column's affinity stores the float 90.0, and the
retrieved entity's rating — the float 90 — is not equal to the inserted
string, neither by Python equality nor structurally. -/
theorem C6_counterexample :
    (add_video_game dbTable vgG).1.val = .ok () ∧
    vgG.rating = PyVal.vStr "90" ∧
    (get_video_game_by_name dbG "G").val =
      .ok (videoGameModelInit (PyVal.vStr "G") (PyVal.vFloat 90) (PyVal.vInt 1)) ∧
    PyVal.pyEq (PyVal.vStr "90") (PyVal.vFloat 90) = false ∧
    PyVal.vFloat 90 ≠ PyVal.vStr "90" :=
  ⟨rfl, rfl, by rfl, by decide, by decide⟩

/-- Inverting a successful INSERT: the returned lastrowid is the next
AUTOINCREMENT id and the connection holds the appended row inside the
open transaction. -/
theorem insert_statement_ok_inversion (db : DB) (nv rv : PyVal) (d : DB) (k : Int)
    (h : insert_statement db nv rv = (d, .ok k)) :
    k = db.view.seq + 1 ∧
    d = { db.beginIfNeeded with pending := some (
        { db.view with
          rows := db.view.rows ++
            [{ id := db.view.seq + 1, name := applyTextAffinity nv,
               rating := applyRealAffinity rv }],
          seq := db.view.seq + 1 }) } := by
  unfold insert_statement at h
  split at h
  · split at h
    · simp at h
    · split at h
      · simp at h
      · rw [DB.view_beginIfNeeded] at h
        rw [Prod.mk.injEq] at h
        obtain ⟨h1, h2⟩ := h
        injection h2 with h2
        exact ⟨h2.symm, h1.symm⟩
  · simp at h

/-- C7: whenever add_video_game succeeds, it writes the store-assigned
identifier — the new row's id, the next AUTOINCREMENT value — back into
the passed entity, regardless of whatever its identifier field held
before the call, and the store's visible rows contain the new row with
that same id. -/
theorem C7_id_written_back_on_success (db : DB) (vg : VideoGameModel)
    (hok : (add_video_game db vg).1.val = .ok ()) :
    (add_video_game db vg).2 = { vg with _id := PyVal.vInt (db.view.seq + 1) } ∧
    (⟨db.view.seq + 1, applyTextAffinity vg.name, applyRealAffinity vg.rating⟩ : Row)
      ∈ (add_video_game db vg).1.db.view.rows := by
  rcases hi : insert_statement db vg.name vg.rating with ⟨d, res⟩
  cases res with
  | error e =>
      exfalso
      unfold add_video_game at hok
      rw [hi] at hok
      simp [database_context] at hok
  | ok k =>
      obtain ⟨hk, hd⟩ := insert_statement_ok_inversion db vg.name vg.rating d k hi
      unfold add_video_game
      rw [hi]
      subst hk
      subst hd
      refine ⟨rfl, ?_⟩
      show (⟨db.view.seq + 1, applyTextAffinity vg.name, applyRealAffinity vg.rating⟩ : Row)
        ∈ db.view.rows ++
          [⟨db.view.seq + 1, applyTextAffinity vg.name, applyRealAffinity vg.rating⟩]
      exact List.mem_append_right _ (List.mem_singleton_self _)

/-- Witness for C7: inserting the concrete entity Z, whose identifier
field already held 999, succeeds and overwrites the identifier with the
store-assigned id 1; the stored row with id 1 is visible. -/
theorem C7_id_written_back_on_success_witness :
    (add_video_game dbTable vgZ).2 =
      { name := PyVal.vStr "Z", rating := PyVal.vFloat 1, _id := PyVal.vInt 1 } ∧
    (⟨1, applyTextAffinity vgZ.name, applyRealAffinity vgZ.rating⟩ : Row)
      ∈ (add_video_game dbTable vgZ).1.db.view.rows :=
  C7_id_written_back_on_success dbTable vgZ (by rfl)
